import Mathlib

/-!
Verification development for the essay-grading pipeline in
`streamlit_agent/essay_grader.py`.

The Python module is shallowly embedded:

* `JsonVal` models the Python values produced by `json.loads`
  (`dict` / `list` / `str` / `int` / `float` / `bool` / `None`); a JSON
  number literal is kept exactly as a decimal mantissa together with a
  power-of-ten exponent, plus a flag recording whether the literal had
  integer syntax (Python returns `int` for those and `float` otherwise).
  The Python-specific `NaN` / `Infinity` extensions and surrogate-pair
  recombination in `\u` escapes are outside the fragment the program ever
  exercises and are not modelled.
* `parseValue` / `parseMembers` / `parseElems` embed the recursive-descent
  grammar of `json.loads` (RFC 8259 as implemented by Python's `json`
  module), fuelled by the input length.
* `firstBraceMatch` embeds `re.search(r"\{[\s\S]*?\}", _)`: the leftmost
  match starts at the first `{` that has a later `}`, and the lazy
  quantifier stops at the first such `}`.
* `extract_scores_from_json`, `create_radar_chart`, the prompt built in
  `get_feedback`, the `re.sub(r"\{.*?\}", ...).strip()` feedback-cleaning
  step and the control flow of `main` are embedded under their source
  names; Streamlit display calls are recorded in a `MainOutput` record.
-/

/-- Python values produced by `json.loads`, as far as this program can
observe them.  `jnum isInt mantissa exp10` denotes the number
`mantissa * 10 ^ exp10`; `isInt = true` iff the literal had neither a
fraction nor an exponent, in which case Python yields an `int`. -/
inductive JsonVal where
  | jnull : JsonVal
  | jbool (b : Bool) : JsonVal
  | jnum (isInt : Bool) (mantissa : Int) (exp10 : Int) : JsonVal
  | jstr (s : String) : JsonVal
  | jarr (elems : List JsonVal) : JsonVal
  | jobj (kvs : List (String × JsonVal)) : JsonVal

/-- Whether the value is a Python `int` (an integer-syntax JSON number). -/
def JsonVal.isPyInt : JsonVal → Bool
  | .jnum true _ _ => true
  | _ => false

/-- The Python score dictionary: insertion-ordered key/value pairs. -/
abbrev PyDict := List (String × JsonVal)

/-- JSON whitespace (the characters skipped by Python's `json` scanner). -/
def isJsonWs (c : Char) : Bool :=
  c == ' ' || c == '\t' || c == '\n' || c == '\r'

/-- Skip JSON whitespace. -/
def skipWs (s : List Char) : List Char := s.dropWhile isJsonWs

/-- ASCII decimal digit test. -/
def isDigitCh (c : Char) : Bool := '0' ≤ c && c ≤ '9'

/-- Numeric value of an ASCII digit. -/
def digitVal (c : Char) : Nat := c.toNat - 48

/-- Decimal value of a digit string. -/
def digitsToNat (ds : List Char) : Nat :=
  ds.foldl (fun acc c => 10 * acc + digitVal c) 0

/-- Value of a hexadecimal digit, `none` for other characters. -/
def hexVal (c : Char) : Option Nat :=
  if '0' ≤ c && c ≤ '9' then some (c.toNat - 48)
  else if 'a' ≤ c && c ≤ 'f' then some (c.toNat - 87)
  else if 'A' ≤ c && c ≤ 'F' then some (c.toNat - 55)
  else none

/-- Body of a JSON string after the opening quote: returns the decoded
characters and the input remaining after the closing quote.  Escapes and
the rejection of raw control characters follow Python's strict scanner. -/
def parseStringBody : List Char → Option (List Char × List Char)
  | [] => none
  | c :: rest =>
    if c == '"' then some ([], rest)
    else if c == '\\' then
      match rest with
      | [] => none
      | e :: rest2 =>
        if e == '"' then (parseStringBody rest2).map (fun p => ('"' :: p.1, p.2))
        else if e == '\\' then (parseStringBody rest2).map (fun p => ('\\' :: p.1, p.2))
        else if e == '/' then (parseStringBody rest2).map (fun p => ('/' :: p.1, p.2))
        else if e == 'b' then (parseStringBody rest2).map (fun p => ('\x08' :: p.1, p.2))
        else if e == 'f' then (parseStringBody rest2).map (fun p => ('\x0c' :: p.1, p.2))
        else if e == 'n' then (parseStringBody rest2).map (fun p => ('\n' :: p.1, p.2))
        else if e == 'r' then (parseStringBody rest2).map (fun p => ('\r' :: p.1, p.2))
        else if e == 't' then (parseStringBody rest2).map (fun p => ('\t' :: p.1, p.2))
        else if e == 'u' then
          match rest2 with
          | h1 :: h2 :: h3 :: h4 :: rest3 =>
            match hexVal h1, hexVal h2, hexVal h3, hexVal h4 with
            | some a, some b, some c3, some d =>
              (parseStringBody rest3).map
                (fun p => (Char.ofNat (((a * 16 + b) * 16 + c3) * 16 + d) :: p.1, p.2))
            | _, _, _, _ => none
          | _ => none
        else none
    else if c.toNat < 32 then none
    else (parseStringBody rest).map (fun p => (c :: p.1, p.2))

/-- The integer part of a JSON number: `0`, or a nonzero digit followed by
digits (leading zeros are not part of the match, as in Python's regex). -/
def parseIntDigits : List Char → Option (List Char × List Char)
  | [] => none
  | c :: rest =>
    if c == '0' then some ([c], rest)
    else if isDigitCh c then
      some (c :: rest.takeWhile isDigitCh, rest.dropWhile isDigitCh)
    else none

/-- A JSON number literal.  Where Python's maximal-munch regex would stop
early and leave text that no JSON context accepts (e.g. `1.` or `1e`),
this parser fails instead; at the `json.loads` level the two agree. -/
def parseNumber (s : List Char) : Option (JsonVal × List Char) :=
  let signed : Bool × List Char :=
    match s with
    | c :: rest => if c == '-' then (true, rest) else (false, s)
    | [] => (false, s)
  match parseIntDigits signed.2 with
  | none => none
  | some (ids, s2) =>
    let fracPart : Option (List Char × List Char) :=
      match s2 with
      | c :: rest =>
        if c == '.' then
          match rest.takeWhile isDigitCh with
          | [] => none
          | fds => some (fds, rest.dropWhile isDigitCh)
        else some ([], s2)
      | [] => some ([], s2)
    match fracPart with
    | none => none
    | some (fds, s3) =>
      let expPart : Option (Option Int × List Char) :=
        match s3 with
        | c :: rest =>
          if c == 'e' || c == 'E' then
            let se : Bool × List Char :=
              match rest with
              | c2 :: rest2 =>
                if c2 == '-' then (true, rest2)
                else if c2 == '+' then (false, rest2)
                else (false, rest)
              | [] => (false, rest)
            match se.2.takeWhile isDigitCh with
            | [] => none
            | eds =>
              let ev : Int := Int.ofNat (digitsToNat eds)
              some (some (if se.1 then -ev else ev), se.2.dropWhile isDigitCh)
          else some (none, s3)
        | [] => some (none, s3)
      match expPart with
      | none => none
      | some (eo, s4) =>
        let mag : Nat := digitsToNat (ids ++ fds)
        let mantissa : Int := if signed.1 then -(Int.ofNat mag) else Int.ofNat mag
        let exp10 : Int := (eo.getD 0) - Int.ofNat fds.length
        let isInt : Bool := fds.isEmpty && eo.isNone
        some (JsonVal.jnum isInt mantissa exp10, s4)

/-- Python `dict` insertion: an existing key keeps its position and takes
the new value; a new key is appended.  This is how `json.loads` resolves
duplicate object keys (last value wins, first position kept). -/
def dictInsert (d : PyDict) (k : String) (v : JsonVal) : PyDict :=
  if d.any (fun p => p.1 == k) then
    d.map (fun p => if p.1 == k then (k, v) else p)
  else d ++ [(k, v)]

mutual

/-- A JSON value at the head of the input (no leading whitespace), as in
Python's `scan_once`.  Fuel bounds the recursion depth; every recursive
call is preceded by consuming at least one character, so any fuel above
the input length is enough. -/
def parseValue : Nat → List Char → Option (JsonVal × List Char)
  | 0, _ => none
  | Nat.succ fuel, s =>
    match s with
    | [] => none
    | c :: rest =>
      if c == '\x7b' then
        match skipWs rest with
        | c1 :: rest1 =>
          if c1 == '\x7d' then some (JsonVal.jobj [], rest1)
          else parseMembers fuel [] (c1 :: rest1)
        | [] => none
      else if c == '[' then
        match skipWs rest with
        | c1 :: rest1 =>
          if c1 == ']' then some (JsonVal.jarr [], rest1)
          else parseElems fuel [] (c1 :: rest1)
        | [] => none
      else if c == '"' then
        (parseStringBody rest).map (fun p => (JsonVal.jstr (String.mk p.1), p.2))
      else if c == 't' then
        match rest with
        | 'r' :: 'u' :: 'e' :: r => some (JsonVal.jbool true, r)
        | _ => none
      else if c == 'f' then
        match rest with
        | 'a' :: 'l' :: 's' :: 'e' :: r => some (JsonVal.jbool false, r)
        | _ => none
      else if c == 'n' then
        match rest with
        | 'u' :: 'l' :: 'l' :: r => some (JsonVal.jnull, r)
        | _ => none
      else parseNumber s

/-- Members of a JSON object, positioned at a key (after `{` or `,`, with
whitespace skipped); `acc` carries the Python dict built so far. -/
def parseMembers : Nat → PyDict → List Char → Option (JsonVal × List Char)
  | 0, _, _ => none
  | Nat.succ fuel, acc, s =>
    match s with
    | [] => none
    | c :: rest =>
      if c == '"' then
        match parseStringBody rest with
        | none => none
        | some (k, s1) =>
          match skipWs s1 with
          | [] => none
          | c2 :: rest2 =>
            if c2 == ':' then
              match parseValue fuel (skipWs rest2) with
              | none => none
              | some (v, s2) =>
                let acc1 := dictInsert acc (String.mk k) v
                match skipWs s2 with
                | [] => none
                | c3 :: rest3 =>
                  if c3 == ',' then parseMembers fuel acc1 (skipWs rest3)
                  else if c3 == '\x7d' then some (JsonVal.jobj acc1, rest3)
                  else none
            else none
      else none

/-- Elements of a JSON array, positioned at a value (whitespace skipped). -/
def parseElems : Nat → List JsonVal → List Char → Option (JsonVal × List Char)
  | 0, _, _ => none
  | Nat.succ fuel, acc, s =>
    match parseValue fuel s with
    | none => none
    | some (v, s1) =>
      match skipWs s1 with
      | [] => none
      | c :: rest =>
        if c == ',' then parseElems fuel (acc ++ [v]) (skipWs rest)
        else if c == ']' then some (JsonVal.jarr (acc ++ [v]), rest)
        else none

end

/-- `json.loads`: skip leading whitespace, parse one value, require only
whitespace to remain (Python raises `Extra data` otherwise). -/
def jsonLoads (s : List Char) : Option JsonVal :=
  match parseValue (s.length + 1) (skipWs s) with
  | some (v, rest) => if (skipWs rest).isEmpty then some v else none
  | none => none

/-- `json.loads` restricted to a top-level object, returned as a Python
dict.  The argument always starts with a brace in this program, so a
successful parse is necessarily an object. -/
def jsonLoadsDict (s : List Char) : Option PyDict :=
  match jsonLoads s with
  | some (JsonVal.jobj kvs) => some kvs
  | _ => none

/-- The characters from the head of the input up to and including the
first `}` — the lazy tail of `re.search(r"\{[\s\S]*?\}", _)` once the
opening brace has matched; `none` when no `}` follows. -/
def takeThroughBrace : List Char → Option (List Char)
  | [] => none
  | c :: rest =>
    if c == '\x7d' then some ['\x7d']
    else (takeThroughBrace rest).map (fun t => c :: t)

/-- `re.search(r"\{[\s\S]*?\}", s)`: try each start position left to
right; at a `{`, the lazy star stops at the first later `}`. -/
def firstBraceMatch : List Char → Option (List Char)
  | [] => none
  | c :: rest =>
    if c == '\x7b' then
      match takeThroughBrace rest with
      | some body => some ('\x7b' :: body)
      | none => firstBraceMatch rest
    else firstBraceMatch rest

/-- Whether the text has any `{...}`-shaped substring, i.e. a `{` with a
later `}` (exactly when `re.search(r"\{[\s\S]*?\}", _)` matches). -/
def hasMatch : List Char → Bool
  | [] => false
  | c :: rest => (c == '\x7b' && rest.contains '\x7d') || hasMatch rest

/-- `extract_scores_from_json` (essay_grader.py:77-94): match the first
`{...}` block, `json.loads` it; `None` when there is no match or the
match does not parse (the `except` branch shows an error and falls
through to `return None`). -/
def extract_scores_from_json (feedback : String) : Option PyDict :=
  match firstBraceMatch feedback.data with
  | some m => jsonLoadsDict m
  | none => none

/-- Drop everything up to and including the first `}` (the text consumed
by one `re.sub` replacement after its opening brace). -/
def dropAfterBrace : List Char → List Char
  | [] => []
  | c :: rest => if c == '\x7d' then rest else dropAfterBrace rest

/-- `re.sub(r"\{.*?\}", "", s, flags=re.DOTALL)`: scan left to right; at
a `{` that has a later `}`, delete through that first `}` and continue
after it; every other character is kept. -/
def pySubBraces : List Char → List Char
  | [] => []
  | c :: rest =>
    if c == '\x7b' && rest.contains '\x7d' then pySubBraces (dropAfterBrace rest)
    else c :: pySubBraces rest
termination_by l => l.length
decreasing_by
  all_goals
    have hlen : ∀ l : List Char, (dropAfterBrace l).length ≤ l.length := by
      intro l
      induction l with
      | nil => simp [dropAfterBrace]
      | cons c rest ih =>
        simp only [dropAfterBrace]
        split
        · simp
        · exact Nat.le_succ_of_le ih
    first
      | exact Nat.lt_succ_of_le (hlen _)
      | exact Nat.lt_succ_self _

/-- Python's `str.strip()` whitespace. -/
def isPySpace (c : Char) : Bool :=
  c == ' ' || c == '\t' || c == '\n' || c == '\r' || c == '\x0b' || c == '\x0c'

/-- Python's `str.strip()`: drop leading and trailing whitespace. -/
def pyStrip (l : List Char) : List Char :=
  ((l.dropWhile isPySpace).reverse.dropWhile isPySpace).reverse

/-- The feedback-splitting step of `main` (essay_grader.py:150):
`re.sub(r"\{.*?\}", "", feedback, flags=re.DOTALL).strip()`. -/
def clean_feedback (feedback : String) : String :=
  String.mk (pyStrip (pySubBraces feedback.data))

/-- `CATEGORIES` (essay_grader.py:22). -/
def CATEGORIES : List String :=
  ["切題性", "結構與邏輯", "專業與政策理解", "批判與建議具體性", "語言與表達"]

/-- The `go.Figure` built by `create_radar_chart`: the fields of its one
`Scatterpolar` trace and of its polar layout. -/
structure RadarFigure where
  r : List JsonVal
  theta : List String
  fill : String
  traceName : String
  radialVisible : Bool
  radialRange : Int × Int
  showlegend : Bool

/-- `create_radar_chart` (essay_grader.py:97-116): close the polygon by
appending `scores[:1]` and `categories[:1]`, fix the radial axis range
to `[0, 5]`. -/
def create_radar_chart (scores : List JsonVal) (categories : List String) : RadarFigure :=
  { r := scores ++ scores.take 1
    theta := categories ++ categories.take 1
    fill := "toself"
    traceName := "分數"
    radialVisible := true
    radialRange := (0, 5)
    showlegend := false }

/-- The chart's point sequence: the paired `(theta, r)` coordinates. -/
def chartPoints (fig : RadarFigure) : List (String × JsonVal) :=
  fig.theta.zip fig.r

/-- The fixed text of the prompt f-string in `get_feedback`
(essay_grader.py:40-69) before the `\x7bquestion\x7d` interpolation;
`\x7b\x7b` / `\x7d\x7d` of the source denote literal braces, written
here as `\x7b` / `\x7d` escapes. -/
def promptHead : String :=
  "\n        你是一位嚴謹、專業且善於教學的法學專家，專長於行政法與社會福利政策。\n        請根據下列五個指標，針對學生的申論題答案進行專業評分與評論，每個指標滿分5分，總分25分。\n        請僅根據提供的知識庫內容進行批改與回饋，並給予具體的改進建議。\n\n        - 切題性：答案是否緊扣題目要求，內容有無偏離主題。\n        - 結構與邏輯：答案是否有清晰的結構，論述是否有邏輯性與層次。\n        - 專業與政策理解：對行政法與社會福利政策的專業知識掌握與應用程度。\n        - 批判與建議具體性：是否能提出具體、深入的批判與建議。\n        - 語言與表達：語言是否精確、流暢，表達是否清楚。\n\n        請依下列格式回覆：\n        1. 五項指標分數（每項5分，並簡要說明評分理由）\n        2. 總分\n        3. 專業回饋（針對答案優缺點給予具體評論）\n        4. 改進建議（明確指出如何提升答案品質）\n        5. 參考改進後的範例答案（根據知識庫內容重寫更佳答案）\n\n        題目："

/-- The fixed prompt text between the question and answer interpolations. -/
def promptMid : String :=
  "\n        用戶回答："

/-- The fixed prompt text after the answer interpolation, holding the JSON
example block. -/
def promptTail : String :=
  "\n\n        請將五項指標分數以 JSON 格式回傳，例如：\n        \x7b\n        \"切題性\": 4,\n        \"結構與邏輯\": 3,\n        \"專業與政策理解\": 5,\n        \"批判與建議具體性\": 4,\n        \"語言與表達\": 2\n        \x7d\n        "

/-- The prompt f-string built inside `get_feedback` (essay_grader.py:40-69):
fixed text with `\x7bquestion\x7d` and `\x7banswer\x7d` interpolated. -/
def gradePrompt (question answer : String) : String :=
  promptHead ++ question ++ promptMid ++ answer ++ promptTail

/-- `get_feedback` (essay_grader.py:25-74) with the LLM as an explicit
parameter: build the prompt, call the provider; on provider failure the
`except` branch displays an error and re-raises. -/
def get_feedback (question answer : String) (llm : String → Except String String) :
    Except String String :=
  llm (gradePrompt question answer)

/-- Everything `main` shows for one button press: whether the provider
was invoked, the warning / error messages displayed, and the score dict,
chart and narrative text rendered. -/
structure MainOutput where
  llmInvoked : Bool
  warning : Option String
  errors : List String
  scores : Option PyDict
  chart : Option RadarFigure
  narrative : Option String

/-- The `st.button` branch of `main` (essay_grader.py:131-153) as a
function of the two inputs and the provider.  Empty inputs short-circuit
to a warning; a provider failure is reported by `get_feedback`'s handler
and again by `main`'s, with nothing rendered; otherwise the score dict
is extracted (a parse failure displaying a non-fatal error), the chart
is drawn only for a truthy (non-empty) dict, and the brace-stripped
narrative is always written. -/
def mainModel (question answer : String) (llm : String → Except String String) : MainOutput :=
  if question = "" ∨ answer = "" then
    { llmInvoked := false, warning := some "請輸入題目與答案", errors := []
      scores := none, chart := none, narrative := none }
  else
    match get_feedback question answer llm with
    | Except.error e =>
      { llmInvoked := true, warning := none
        errors := ["獲取回饋時發生錯誤: " ++ e, "批改過程發生錯誤: " ++ e]
        scores := none, chart := none, narrative := none }
    | Except.ok feedback =>
      let scoresOpt := extract_scores_from_json feedback
      let parseErrs : List String :=
        match firstBraceMatch feedback.data with
        | some m => if (jsonLoadsDict m).isNone then ["解析分數 JSON 失敗"] else []
        | none => []
      let chart : Option RadarFigure :=
        match scoresOpt with
        | some d =>
          if d.isEmpty then none
          else some (create_radar_chart (d.map Prod.snd) (d.map Prod.fst))
        | none => none
      { llmInvoked := true, warning := none, errors := parseErrs
        scores := scoresOpt, chart := chart
        narrative := some (clean_feedback feedback) }

/-- The §8 example mapping `A:4, B:3, C:5, D:4, E:2` used to exercise the
chart renderer. -/
def exampleScores : PyDict :=
  [("A", JsonVal.jnum true 4 0), ("B", JsonVal.jnum true 3 0), ("C", JsonVal.jnum true 5 0),
    ("D", JsonVal.jnum true 4 0), ("E", JsonVal.jnum true 2 0)]

/-- `small` is a prefix of `big`. -/
def listPrefixOf : List Char → List Char → Bool
  | [], _ => true
  | _ :: _, [] => false
  | a :: as, b :: bs => a == b && listPrefixOf as bs

/-- `small` occurs as a contiguous substring of `big`. -/
def occursIn (small : List Char) : List Char → Bool
  | [] => listPrefixOf small []
  | b :: rest => listPrefixOf small (b :: rest) || occursIn small rest

theorem contains_eq_false_iff {l : List Char} {c : Char} : l.contains c = false ↔ c ∉ l := by
  simp [List.contains_eq_any_beq]

theorem takeThroughBrace_eq_none {l : List Char} (h : '\x7d' ∉ l) :
    takeThroughBrace l = none := by
  induction l with
  | nil => rfl
  | cons c rest ih =>
    have hc : (c == '\x7d') = false := by
      simp only [List.mem_cons, not_or] at h
      exact beq_eq_false_iff_ne.mpr (fun he => h.1 he.symm)
    have hr : '\x7d' ∉ rest := fun hm => h (List.mem_cons_of_mem _ hm)
    simp [takeThroughBrace, hc, ih hr]

theorem takeThroughBrace_append {mid : List Char} (post : List Char) (h : '\x7d' ∉ mid) :
    takeThroughBrace (mid ++ '\x7d' :: post) = some (mid ++ ['\x7d']) := by
  induction mid with
  | nil => simp [takeThroughBrace]
  | cons c rest ih =>
    have hc : (c == '\x7d') = false := by
      simp only [List.mem_cons, not_or] at h
      exact beq_eq_false_iff_ne.mpr (fun he => h.1 he.symm)
    have hr : '\x7d' ∉ rest := fun hm => h (List.mem_cons_of_mem _ hm)
    simp [takeThroughBrace, hc, ih hr]

theorem firstBraceMatch_decomp {pre mid : List Char} (post : List Char)
    (h1 : '\x7b' ∉ pre) (h2 : '\x7d' ∉ mid) :
    firstBraceMatch (pre ++ '\x7b' :: (mid ++ '\x7d' :: post)) =
      some ('\x7b' :: (mid ++ ['\x7d'])) := by
  induction pre with
  | nil => simp [firstBraceMatch, takeThroughBrace_append post h2]
  | cons c rest ih =>
    have hc : (c == '\x7b') = false := by
      simp only [List.mem_cons, not_or] at h1
      exact beq_eq_false_iff_ne.mpr (fun he => h1.1 he.symm)
    have hr : '\x7b' ∉ rest := fun hm => h1 (List.mem_cons_of_mem _ hm)
    simpa [firstBraceMatch, hc] using ih hr

theorem firstBraceMatch_eq_none {l : List Char} (h : hasMatch l = false) :
    firstBraceMatch l = none := by
  induction l with
  | nil => rfl
  | cons c rest ih =>
    simp only [hasMatch, Bool.or_eq_false_iff, Bool.and_eq_false_iff] at h
    obtain ⟨h1, h2⟩ := h
    by_cases hc : c = '\x7b'
    · subst hc
      have hcon : rest.contains '\x7d' = false := by
        rcases h1 with h1 | h1
        · simp at h1
        · exact h1
      simp [firstBraceMatch,
        takeThroughBrace_eq_none (contains_eq_false_iff.mp hcon), ih h2]
    · simp [firstBraceMatch, hc, ih h2]

theorem hasMatch_false_of_sublist {l' l : List Char} (hs : l'.Sublist l)
    (h : hasMatch l = false) : hasMatch l' = false := by
  induction hs with
  | slnil => rfl
  | cons a hs ih =>
    simp only [hasMatch, Bool.or_eq_false_iff] at h
    exact ih h.2
  | @cons₂ l₁ l₂ a hs ih =>
    simp only [hasMatch, Bool.or_eq_false_iff, Bool.and_eq_false_iff] at h ⊢
    obtain ⟨h1, h2⟩ := h
    refine ⟨?_, ih h2⟩
    rcases h1 with h1 | h1
    · exact Or.inl h1
    · refine Or.inr (contains_eq_false_iff.mpr ?_)
      exact fun hm => contains_eq_false_iff.mp h1 (hs.subset hm)

theorem contains_false_of_sublist {l' l : List Char} {c : Char} (hs : l'.Sublist l)
    (h : l.contains c = false) : l'.contains c = false :=
  contains_eq_false_iff.mpr (fun hm => contains_eq_false_iff.mp h (hs.subset hm))

theorem dropAfterBrace_sublist : ∀ l : List Char, (dropAfterBrace l).Sublist l := by
  intro l
  induction l with
  | nil => simp [dropAfterBrace]
  | cons c rest ih =>
    simp only [dropAfterBrace]
    split
    · exact (List.sublist_cons_self _ _)
    · exact ih.cons c

theorem pySubBraces_cons (c : Char) (rest : List Char) :
    pySubBraces (c :: rest) =
      if c == '\x7b' && rest.contains '\x7d' then pySubBraces (dropAfterBrace rest)
      else c :: pySubBraces rest := by
  simp [pySubBraces]

theorem pySubBraces_sublist : ∀ l : List Char, (pySubBraces l).Sublist l := by
  intro l
  induction l using pySubBraces.induct with
  | case1 => simp [pySubBraces]
  | case2 c rest hcond ih =>
    rw [pySubBraces_cons, if_pos hcond]
    exact (ih.trans (dropAfterBrace_sublist rest)).cons c
  | case3 c rest hcond ih =>
    rw [pySubBraces_cons, if_neg hcond]
    exact ih.cons₂ c

theorem hasMatch_pySubBraces (l : List Char) : hasMatch (pySubBraces l) = false := by
  induction l using pySubBraces.induct with
  | case1 => simp [pySubBraces, hasMatch]
  | case2 c rest hcond ih =>
    rw [pySubBraces_cons, if_pos hcond]
    exact ih
  | case3 c rest hcond ih =>
    have hcond' : (c == '\x7b' && rest.contains '\x7d') = false := by
      simpa using hcond
    rw [pySubBraces_cons, if_neg hcond]
    simp only [hasMatch, Bool.or_eq_false_iff, Bool.and_eq_false_iff]
    refine ⟨?_, ih⟩
    rcases Bool.and_eq_false_iff.mp hcond' with h | h
    · exact Or.inl h
    · exact Or.inr (contains_false_of_sublist (pySubBraces_sublist rest) h)

theorem pySubBraces_of_hasMatch_false {l : List Char} (h : hasMatch l = false) :
    pySubBraces l = l := by
  induction l with
  | nil => simp [pySubBraces]
  | cons c rest ih =>
    simp only [hasMatch, Bool.or_eq_false_iff, Bool.and_eq_false_iff] at h
    obtain ⟨h1, h2⟩ := h
    have hcond : (c == '\x7b' && rest.contains '\x7d') = false :=
      Bool.and_eq_false_iff.mpr h1
    rw [pySubBraces_cons, if_neg (by rw [hcond]; exact Bool.false_ne_true), ih h2]

theorem dropWhile_dropWhile_self (p : Char → Bool) (l : List Char) :
    (l.dropWhile p).dropWhile p = l.dropWhile p := by
  induction l with
  | nil => rfl
  | cons c rest ih =>
    by_cases hc : p c = true
    · simp [List.dropWhile_cons_of_pos hc, ih]
    · simp [List.dropWhile_cons_of_neg hc]

theorem prefix_dropWhile_fix {p : Char → Bool} {z w t : List Char}
    (hz : z.dropWhile p = z) (hw : z = w ++ t) : w.dropWhile p = w := by
  cases w with
  | nil => rfl
  | cons x w' =>
    subst hw
    by_cases hx : p x = true
    · exfalso
      have h1 : ((x :: w') ++ t).dropWhile p = (w' ++ t).dropWhile p := by
        simpa using List.dropWhile_cons_of_pos (l := w' ++ t) hx
      have hlen := congrArg List.length (hz.symm.trans h1)
      have hle : ((w' ++ t).dropWhile p).length ≤ (w' ++ t).length :=
        (List.dropWhile_sublist _).length_le
      simp only [List.length_cons, List.length_append] at hlen hle
      omega
    · simp [List.dropWhile_cons_of_neg hx]

theorem pyStrip_sublist (l : List Char) : (pyStrip l).Sublist l := by
  have h1 : (l.dropWhile isPySpace).Sublist l := List.dropWhile_sublist _
  have h2 : ((l.dropWhile isPySpace).reverse.dropWhile isPySpace).Sublist
      (l.dropWhile isPySpace).reverse := List.dropWhile_sublist _
  have h3 := h2.reverse
  rw [List.reverse_reverse] at h3
  exact h3.trans h1

theorem pyStrip_idem (l : List Char) : pyStrip (pyStrip l) = pyStrip l := by
  unfold pyStrip
  have hA : (l.dropWhile isPySpace).dropWhile isPySpace = l.dropWhile isPySpace :=
    dropWhile_dropWhile_self _ _
  set A := l.dropWhile isPySpace with hAdef
  set B := (A.reverse.dropWhile isPySpace).reverse with hBdef
  have hsplit : A = B ++ (A.reverse.takeWhile isPySpace).reverse := by
    rw [hBdef, ← List.reverse_append, List.takeWhile_append_dropWhile, List.reverse_reverse]
  have hB1 : B.dropWhile isPySpace = B := prefix_dropWhile_fix hA hsplit
  rw [hB1]
  have hB2 : B.reverse.dropWhile isPySpace = B.reverse := by
    rw [hBdef, List.reverse_reverse]
    exact dropWhile_dropWhile_self _ _
  rw [hB2, List.reverse_reverse]

theorem listPrefixOf_self_append (s r : List Char) : listPrefixOf s (s ++ r) = true := by
  induction s with
  | nil => simp [listPrefixOf]
  | cons a as ih => simp [listPrefixOf, ih]

theorem listPrefixOf_append_right {s l : List Char} (r : List Char)
    (h : listPrefixOf s l = true) : listPrefixOf s (l ++ r) = true := by
  induction s generalizing l with
  | nil => simp [listPrefixOf]
  | cons a as ih =>
    cases l with
    | nil => simp [listPrefixOf] at h
    | cons b bs =>
      simp only [listPrefixOf, Bool.and_eq_true] at h
      simp only [List.cons_append, listPrefixOf, Bool.and_eq_true]
      exact ⟨h.1, ih h.2⟩

theorem occursIn_nil_left (big : List Char) : occursIn [] big = true := by
  induction big with
  | nil => simp [occursIn, listPrefixOf]
  | cons b rest ih => simp [occursIn, listPrefixOf]

theorem occursIn_append_left {s l : List Char} (r : List Char)
    (h : occursIn s l = true) : occursIn s (l ++ r) = true := by
  induction l with
  | nil =>
    cases s with
    | nil => simpa using occursIn_nil_left r
    | cons a as => simp [occursIn, listPrefixOf] at h
  | cons b rest ih =>
    simp only [occursIn, Bool.or_eq_true] at h
    simp only [List.cons_append, occursIn, Bool.or_eq_true]
    rcases h with h | h
    · exact Or.inl (by simpa using listPrefixOf_append_right (l := b :: rest) r h)
    · exact Or.inr (ih h)

theorem occursIn_sandwich (s l r : List Char) : occursIn s (l ++ (s ++ r)) = true := by
  induction l with
  | nil =>
    cases s with
    | nil => simpa using occursIn_nil_left r
    | cons a as =>
      simp only [List.nil_append, List.cons_append, occursIn, Bool.or_eq_true]
      exact Or.inl (by simpa using listPrefixOf_self_append (a :: as) r)
  | cons b rest ih =>
    simp only [List.cons_append, occursIn, Bool.or_eq_true]
    exact Or.inr ih

theorem zip_map_fst_snd {α β : Type} (d : List (α × β)) :
    (d.map Prod.fst).zip (d.map Prod.snd) = d := by
  induction d with
  | nil => rfl
  | cons p rest ih => simp [ih]

theorem chartPoints_create (d : PyDict) :
    chartPoints (create_radar_chart (d.map Prod.snd) (d.map Prod.fst)) = d ++ d.take 1 := by
  unfold chartPoints create_radar_chart
  simp only []
  rw [List.zip_append (by simp), zip_map_fst_snd]
  congr 1
  rw [← List.map_take, ← List.map_take, zip_map_fst_snd]

theorem mainModel_empty (q a : String) (llm : String → Except String String)
    (h : q = "" ∨ a = "") :
    mainModel q a llm =
      { llmInvoked := false, warning := some "請輸入題目與答案", errors := []
        scores := none, chart := none, narrative := none } := by
  unfold mainModel
  rw [if_pos h]

theorem mainModel_error (q a e : String) (hq : q ≠ "") (ha : a ≠ "") :
    mainModel q a (fun _ => Except.error e) =
      { llmInvoked := true, warning := none
        errors := ["獲取回饋時發生錯誤: " ++ e, "批改過程發生錯誤: " ++ e]
        scores := none, chart := none, narrative := none } := by
  unfold mainModel get_feedback
  rw [if_neg (by push_neg; exact ⟨hq, ha⟩)]

theorem mainModel_ok (q a fb : String) (hq : q ≠ "") (ha : a ≠ "") :
    mainModel q a (fun _ => Except.ok fb) =
      { llmInvoked := true, warning := none
        errors :=
          match firstBraceMatch fb.data with
          | some m => if (jsonLoadsDict m).isNone then ["解析分數 JSON 失敗"] else []
          | none => []
        scores := extract_scores_from_json fb
        chart :=
          match extract_scores_from_json fb with
          | some d =>
            if d.isEmpty then none
            else some (create_radar_chart (d.map Prod.snd) (d.map Prod.fst))
          | none => none
        narrative := some (clean_feedback fb) } := by
  unfold mainModel get_feedback
  rw [if_neg (by push_neg; exact ⟨hq, ha⟩)]

/-- Claim C1: `extract_scores_from_json` returns the parsed content of the
first `\x7b...\x7d`-shaped substring of the raw response in scan order.
Decompose the raw text as `pre ++ brace-block ++ post` where `pre` holds no
opening brace (so the block is the first such substring) and `mid` holds no
closing brace (the lazy match stops at the first one): whenever the block
parses, the result is exactly its parsed content — for any `post`, so a
text whose single block is well-formed returns that block's mapping, and a
text with two or more blocks returns the mapping of the first block only. -/
theorem extract_scores_first_block (pre mid post : List Char) (m : PyDict)
    (h1 : '\x7b' ∉ pre) (h2 : '\x7d' ∉ mid)
    (hparse : jsonLoadsDict ('\x7b' :: (mid ++ ['\x7d'])) = some m) :
    extract_scores_from_json (String.mk (pre ++ '\x7b' :: (mid ++ '\x7d' :: post))) =
      some m := by
  unfold extract_scores_from_json
  rw [show (String.mk (pre ++ '\x7b' :: (mid ++ '\x7d' :: post))).data
        = pre ++ '\x7b' :: (mid ++ '\x7d' :: post) from rfl]
  rw [firstBraceMatch_decomp post h1 h2]
  exact hparse

theorem extract_scores_first_block_witness :
    '\x7b' ∉ "ab ".data ∧ '\x7d' ∉ "\"A\": 4".data ∧
    jsonLoadsDict ('\x7b' :: ("\"A\": 4".data ++ ['\x7d'])) =
      some [("A", JsonVal.jnum true 4 0)] ∧
    extract_scores_from_json
      (String.mk ("ab ".data ++ '\x7b' :: ("\"A\": 4".data ++ '\x7d' :: " tail \x7b\"B\": 9\x7d".data))) =
      some [("A", JsonVal.jnum true 4 0)] :=
  ⟨by decide, by decide, by rfl,
    extract_scores_first_block "ab ".data "\"A\": 4".data " tail \x7b\"B\": 9\x7d".data
      [("A", JsonVal.jnum true 4 0)] (by decide) (by decide) (by rfl)⟩

/-- Claim C2: score-extraction failure is non-fatal.  A text with no
`\x7b...\x7d`-shaped substring extracts to `None`; and whenever extraction
returns `None` (no match, or the matched substring fails to parse), the
pipeline still runs to the end: no warning, chart rendering is skipped,
and the narrative is still produced from the raw response. -/
theorem score_extraction_nonfatal (q a fb : String) (hq : q ≠ "") (ha : a ≠ "")
    (hfail : extract_scores_from_json fb = none) :
    (∀ g : String, hasMatch g.data = false → extract_scores_from_json g = none) ∧
    (mainModel q a (fun _ => Except.ok fb)).warning = none ∧
    (mainModel q a (fun _ => Except.ok fb)).chart = none ∧
    (mainModel q a (fun _ => Except.ok fb)).narrative = some (clean_feedback fb) := by
  refine ⟨?_, ?_, ?_, ?_⟩
  · intro g hg
    unfold extract_scores_from_json
    rw [firstBraceMatch_eq_none hg]
  · rw [mainModel_ok q a fb hq ha]
  · rw [mainModel_ok q a fb hq ha]
    simp [hfail]
  · rw [mainModel_ok q a fb hq ha]

theorem score_extraction_nonfatal_witness :
    ("X" : String) ≠ "" ∧ ("Y" : String) ≠ "" ∧
    extract_scores_from_json "this response has no score block" = none ∧
    ((∀ g : String, hasMatch g.data = false → extract_scores_from_json g = none) ∧
     (mainModel "X" "Y" (fun _ => Except.ok "this response has no score block")).warning = none ∧
     (mainModel "X" "Y" (fun _ => Except.ok "this response has no score block")).chart = none ∧
     (mainModel "X" "Y" (fun _ => Except.ok "this response has no score block")).narrative =
       some (clean_feedback "this response has no score block")) :=
  ⟨by decide, by decide, by rfl,
    score_extraction_nonfatal "X" "Y" "this response has no score block"
      (by decide) (by decide) (by rfl)⟩

set_option maxRecDepth 100000 in
/-- Claim C3: for every non-empty question and answer, the prompt built by
`get_feedback` contains the question verbatim, the answer verbatim, and all
five rubric category names of `CATEGORIES` verbatim (as contiguous
substrings). -/
theorem prompt_contains_inputs_and_categories (q a : String) (hq : q ≠ "") (ha : a ≠ "") :
    occursIn q.data (gradePrompt q a).data = true ∧
    occursIn a.data (gradePrompt q a).data = true ∧
    ∀ c ∈ CATEGORIES, occursIn c.data (gradePrompt q a).data = true := by
  have hdata : (gradePrompt q a).data =
      promptHead.data ++ (q.data ++ (promptMid.data ++ (a.data ++ promptTail.data))) := by
    simp [gradePrompt, String.data_append, List.append_assoc]
  have hdata2 : (gradePrompt q a).data =
      (promptHead.data ++ (q.data ++ promptMid.data)) ++ (a.data ++ promptTail.data) := by
    simp [gradePrompt, String.data_append, List.append_assoc]
  refine ⟨?_, ?_, ?_⟩
  · rw [hdata]
    exact occursIn_sandwich q.data promptHead.data _
  · rw [hdata2]
    exact occursIn_sandwich a.data _ promptTail.data
  · intro c hc
    rw [hdata]
    refine occursIn_append_left _ ?_
    simp only [CATEGORIES, List.mem_cons, List.not_mem_nil, or_false] at hc
    rcases hc with rfl | rfl | rfl | rfl | rfl <;> decide

theorem prompt_contains_inputs_and_categories_witness :
    ("X" : String) ≠ "" ∧ ("Y" : String) ≠ "" ∧
    (occursIn "X".data (gradePrompt "X" "Y").data = true ∧
     occursIn "Y".data (gradePrompt "X" "Y").data = true ∧
     ∀ c ∈ CATEGORIES, occursIn c.data (gradePrompt "X" "Y").data = true) :=
  ⟨by decide, by decide,
    prompt_contains_inputs_and_categories "X" "Y" (by decide) (by decide)⟩

/-- Claim C4: the feedback-splitting step (`re.sub` of the brace pattern,
then `strip`) removes every `\x7b...\x7d`-shaped substring — its output has
no remaining match of the pattern — and it is idempotent: applying it to
its own output returns the output unchanged. -/
theorem clean_feedback_complete_and_idem (fb : String) :
    hasMatch (clean_feedback fb).data = false ∧
    clean_feedback (clean_feedback fb) = clean_feedback fb := by
  have hdata : (clean_feedback fb).data = pyStrip (pySubBraces fb.data) := rfl
  have hnomatch : hasMatch (clean_feedback fb).data = false := by
    rw [hdata]
    exact hasMatch_false_of_sublist (pyStrip_sublist _) (hasMatch_pySubBraces _)
  refine ⟨hnomatch, ?_⟩
  show String.mk (pyStrip (pySubBraces (clean_feedback fb).data)) = clean_feedback fb
  rw [hdata] at hnomatch ⊢
  rw [pySubBraces_of_hasMatch_false hnomatch, pyStrip_idem]
  rfl

/-- Claim C5: for every score mapping with at least one entry,
`create_radar_chart` (fed the mapping's values and keys in order, as `main`
does) produces a closed sequence of `n + 1` points in the mapping's given
order, whose first and last points coincide (the first pair is repeated at
the end), with the radial axis range fixed at `[0, 5]` regardless of the
scores. -/
theorem create_radar_chart_closed (d : PyDict) (h : d ≠ []) :
    chartPoints (create_radar_chart (d.map Prod.snd) (d.map Prod.fst)) = d ++ d.take 1 ∧
    (chartPoints (create_radar_chart (d.map Prod.snd) (d.map Prod.fst))).length =
      d.length + 1 ∧
    (chartPoints (create_radar_chart (d.map Prod.snd) (d.map Prod.fst))).head? = d.head? ∧
    (chartPoints (create_radar_chart (d.map Prod.snd) (d.map Prod.fst))).getLast? =
      d.head? ∧
    (create_radar_chart (d.map Prod.snd) (d.map Prod.fst)).radialRange = (0, 5) := by
  obtain ⟨p, rest, rfl⟩ : ∃ p rest, d = p :: rest := by
    cases d with
    | nil => exact absurd rfl h
    | cons p rest => exact ⟨p, rest, rfl⟩
  refine ⟨chartPoints_create _, ?_, ?_, ?_, rfl⟩
  · rw [chartPoints_create]
    simp
  · rw [chartPoints_create]
    simp
  · rw [chartPoints_create]
    simpa using List.getLast?_concat (p :: rest)

theorem create_radar_chart_closed_witness :
    (exampleScores ≠ [] ∧
      (chartPoints (create_radar_chart (exampleScores.map Prod.snd) (exampleScores.map Prod.fst)) =
          exampleScores ++ exampleScores.take 1 ∧
        (chartPoints (create_radar_chart (exampleScores.map Prod.snd) (exampleScores.map Prod.fst))).length =
          exampleScores.length + 1 ∧
        (chartPoints (create_radar_chart (exampleScores.map Prod.snd) (exampleScores.map Prod.fst))).head? =
          exampleScores.head? ∧
        (chartPoints (create_radar_chart (exampleScores.map Prod.snd) (exampleScores.map Prod.fst))).getLast? =
          exampleScores.head? ∧
        (create_radar_chart (exampleScores.map Prod.snd) (exampleScores.map Prod.fst)).radialRange =
          (0, 5))) ∧
    chartPoints (create_radar_chart (exampleScores.map Prod.snd) (exampleScores.map Prod.fst)) =
      [("A", JsonVal.jnum true 4 0), ("B", JsonVal.jnum true 3 0), ("C", JsonVal.jnum true 5 0),
        ("D", JsonVal.jnum true 4 0), ("E", JsonVal.jnum true 2 0), ("A", JsonVal.jnum true 4 0)] :=
  ⟨⟨by simp [exampleScores], create_radar_chart_closed exampleScores (by simp [exampleScores])⟩,
    by rfl⟩

/-- Claim C6: for every submission in which the question or the answer is
empty, the LLM is never invoked and an input warning — not an error — is
produced. -/
theorem empty_input_short_circuit (q a : String) (llm : String → Except String String)
    (h : q = "" ∨ a = "") :
    (mainModel q a llm).llmInvoked = false ∧
    (mainModel q a llm).warning = some "請輸入題目與答案" ∧
    (mainModel q a llm).errors = [] := by
  rw [mainModel_empty q a llm h]
  exact ⟨rfl, rfl, rfl⟩

theorem empty_input_short_circuit_witness :
    (("" : String) = "" ∨ ("Y" : String) = "") ∧
    ((mainModel "" "Y" (fun _ => Except.ok "z")).llmInvoked = false ∧
      (mainModel "" "Y" (fun _ => Except.ok "z")).warning = some "請輸入題目與答案" ∧
      (mainModel "" "Y" (fun _ => Except.ok "z")).errors = []) :=
  ⟨Or.inl rfl, empty_input_short_circuit "" "Y" (fun _ => Except.ok "z") (Or.inl rfl)⟩

/-- Claim C7: when the LLM call fails, the failure is surfaced as displayed
errors (once by `get_feedback`'s handler, once by `main`'s) and the grading
attempt aborts with no partial results: no score mapping, no chart and no
narrative are shown. -/
theorem provider_error_aborts (q a e : String) (hq : q ≠ "") (ha : a ≠ "") :
    (mainModel q a (fun _ => Except.error e)).errors =
      ["獲取回饋時發生錯誤: " ++ e, "批改過程發生錯誤: " ++ e] ∧
    (mainModel q a (fun _ => Except.error e)).scores = none ∧
    (mainModel q a (fun _ => Except.error e)).chart = none ∧
    (mainModel q a (fun _ => Except.error e)).narrative = none ∧
    (mainModel q a (fun _ => Except.error e)).llmInvoked = true := by
  rw [mainModel_error q a e hq ha]
  exact ⟨rfl, rfl, rfl, rfl, rfl⟩

theorem provider_error_aborts_witness :
    ("X" : String) ≠ "" ∧ ("Y" : String) ≠ "" ∧
    ((mainModel "X" "Y" (fun _ => Except.error "boom")).errors =
        ["獲取回饋時發生錯誤: " ++ "boom", "批改過程發生錯誤: " ++ "boom"] ∧
      (mainModel "X" "Y" (fun _ => Except.error "boom")).scores = none ∧
      (mainModel "X" "Y" (fun _ => Except.error "boom")).chart = none ∧
      (mainModel "X" "Y" (fun _ => Except.error "boom")).narrative = none ∧
      (mainModel "X" "Y" (fun _ => Except.error "boom")).llmInvoked = true) :=
  ⟨by decide, by decide, provider_error_aborts "X" "Y" "boom" (by decide) (by decide)⟩

/-- Claim C8 counterexample: the chart's axis categories come from the
parsed score dict's keys, not from `CATEGORIES`.  With the provider
returning a block keyed `"X"`, a chart is produced whose axis sequence
differs from the rubric category list. -/
theorem chart_axis_counterexample :
    ∃ fig : RadarFigure,
      (mainModel "X" "Y" (fun _ => Except.ok "pre \x7b\"X\": 1\x7d post")).chart = some fig ∧
      fig.theta ≠ CATEGORIES ++ CATEGORIES.take 1 := by
  refine ⟨create_radar_chart [JsonVal.jnum true 1 0] ["X"], ?_, ?_⟩
  · rfl
  · decide

/-- Claim C8 (amended): for every grading invocation that produces a chart,
the chart's axis sequence equals the parsed score mapping's keys in
insertion order (closed by repeating the first key); it equals the fixed
rubric list exactly when the parsed keys are the rubric categories in their
declared order. -/
theorem chart_axis_follows_scores (q a fb : String) (d : PyDict)
    (hq : q ≠ "") (ha : a ≠ "") (hd : extract_scores_from_json fb = some d)
    (hne : d ≠ []) :
    (mainModel q a (fun _ => Except.ok fb)).chart =
      some (create_radar_chart (d.map Prod.snd) (d.map Prod.fst)) ∧
    (create_radar_chart (d.map Prod.snd) (d.map Prod.fst)).theta =
      d.map Prod.fst ++ (d.map Prod.fst).take 1 ∧
    (d.map Prod.fst = CATEGORIES →
      (create_radar_chart (d.map Prod.snd) (d.map Prod.fst)).theta =
        CATEGORIES ++ CATEGORIES.take 1) := by
  have hie : d.isEmpty = false := by
    cases d with
    | nil => exact absurd rfl hne
    | cons p rest => rfl
  refine ⟨?_, rfl, ?_⟩
  · rw [mainModel_ok q a fb hq ha]
    simp only [hd, hie]
    rfl
  · intro hk
    show d.map Prod.fst ++ (d.map Prod.fst).take 1 = CATEGORIES ++ CATEGORIES.take 1
    rw [hk]

theorem chart_axis_follows_scores_witness :
    extract_scores_from_json
        "1. 分析...\n\x7b\"切題性\":4,\"結構與邏輯\":3,\"專業與政策理解\":5,\"批判與建議具體性\":4,\"語言與表達\":2\x7d\n2. 總分 18..." =
      some [("切題性", JsonVal.jnum true 4 0), ("結構與邏輯", JsonVal.jnum true 3 0),
        ("專業與政策理解", JsonVal.jnum true 5 0), ("批判與建議具體性", JsonVal.jnum true 4 0),
        ("語言與表達", JsonVal.jnum true 2 0)] ∧
    ([("切題性", JsonVal.jnum true 4 0), ("結構與邏輯", JsonVal.jnum true 3 0),
        ("專業與政策理解", JsonVal.jnum true 5 0), ("批判與建議具體性", JsonVal.jnum true 4 0),
        ("語言與表達", JsonVal.jnum true 2 0)] : PyDict).map Prod.fst = CATEGORIES ∧
    ((mainModel "X" "Y"
        (fun _ => Except.ok
          "1. 分析...\n\x7b\"切題性\":4,\"結構與邏輯\":3,\"專業與政策理解\":5,\"批判與建議具體性\":4,\"語言與表達\":2\x7d\n2. 總分 18...")).chart =
      some (create_radar_chart
        (([("切題性", JsonVal.jnum true 4 0), ("結構與邏輯", JsonVal.jnum true 3 0),
            ("專業與政策理解", JsonVal.jnum true 5 0), ("批判與建議具體性", JsonVal.jnum true 4 0),
            ("語言與表達", JsonVal.jnum true 2 0)] : PyDict).map Prod.snd)
        (([("切題性", JsonVal.jnum true 4 0), ("結構與邏輯", JsonVal.jnum true 3 0),
            ("專業與政策理解", JsonVal.jnum true 5 0), ("批判與建議具體性", JsonVal.jnum true 4 0),
            ("語言與表達", JsonVal.jnum true 2 0)] : PyDict).map Prod.fst)) ∧
      (create_radar_chart
        (([("切題性", JsonVal.jnum true 4 0), ("結構與邏輯", JsonVal.jnum true 3 0),
            ("專業與政策理解", JsonVal.jnum true 5 0), ("批判與建議具體性", JsonVal.jnum true 4 0),
            ("語言與表達", JsonVal.jnum true 2 0)] : PyDict).map Prod.snd)
        (([("切題性", JsonVal.jnum true 4 0), ("結構與邏輯", JsonVal.jnum true 3 0),
            ("專業與政策理解", JsonVal.jnum true 5 0), ("批判與建議具體性", JsonVal.jnum true 4 0),
            ("語言與表達", JsonVal.jnum true 2 0)] : PyDict).map Prod.fst)).theta =
        ([("切題性", JsonVal.jnum true 4 0), ("結構與邏輯", JsonVal.jnum true 3 0),
            ("專業與政策理解", JsonVal.jnum true 5 0), ("批判與建議具體性", JsonVal.jnum true 4 0),
            ("語言與表達", JsonVal.jnum true 2 0)] : PyDict).map Prod.fst ++
          (([("切題性", JsonVal.jnum true 4 0), ("結構與邏輯", JsonVal.jnum true 3 0),
              ("專業與政策理解", JsonVal.jnum true 5 0), ("批判與建議具體性", JsonVal.jnum true 4 0),
              ("語言與表達", JsonVal.jnum true 2 0)] : PyDict).map Prod.fst).take 1 ∧
      (([("切題性", JsonVal.jnum true 4 0), ("結構與邏輯", JsonVal.jnum true 3 0),
            ("專業與政策理解", JsonVal.jnum true 5 0), ("批判與建議具體性", JsonVal.jnum true 4 0),
            ("語言與表達", JsonVal.jnum true 2 0)] : PyDict).map Prod.fst = CATEGORIES →
        (create_radar_chart
          (([("切題性", JsonVal.jnum true 4 0), ("結構與邏輯", JsonVal.jnum true 3 0),
              ("專業與政策理解", JsonVal.jnum true 5 0), ("批判與建議具體性", JsonVal.jnum true 4 0),
              ("語言與表達", JsonVal.jnum true 2 0)] : PyDict).map Prod.snd)
          (([("切題性", JsonVal.jnum true 4 0), ("結構與邏輯", JsonVal.jnum true 3 0),
              ("專業與政策理解", JsonVal.jnum true 5 0), ("批判與建議具體性", JsonVal.jnum true 4 0),
              ("語言與表達", JsonVal.jnum true 2 0)] : PyDict).map Prod.fst)).theta =
          CATEGORIES ++ CATEGORIES.take 1)) :=
  ⟨by rfl, by rfl,
    chart_axis_follows_scores "X" "Y"
      "1. 分析...\n\x7b\"切題性\":4,\"結構與邏輯\":3,\"專業與政策理解\":5,\"批判與建議具體性\":4,\"語言與表達\":2\x7d\n2. 總分 18..."
      [("切題性", JsonVal.jnum true 4 0), ("結構與邏輯", JsonVal.jnum true 3 0),
        ("專業與政策理解", JsonVal.jnum true 5 0), ("批判與建議具體性", JsonVal.jnum true 4 0),
        ("語言與表達", JsonVal.jnum true 2 0)]
      (by decide) (by decide) (by rfl) (by simp)⟩

/-- Claim C9 counterexample: a score block holding the non-integer JSON
number `4.5` does NOT yield an integer value in the returned mapping — the
value comes back as the float `4.5` (no coercion to `int` is performed;
the `Dict[str, int]` annotation is unenforced). -/
theorem extract_scores_no_coercion_counterexample :
    ¬ ∃ d : PyDict,
        extract_scores_from_json "\x7b\"a\": 4.5\x7d" = some d ∧
        ∀ kv ∈ d, (kv.2).isPyInt = true := by
  rintro ⟨d, hd, hall⟩
  have h0 : extract_scores_from_json "\x7b\"a\": 4.5\x7d" =
      some [("a", JsonVal.jnum false 45 (-1))] := by rfl
  have hde : ([("a", JsonVal.jnum false 45 (-1))] : PyDict) = d :=
    Option.some.inj (h0.symm.trans hd)
  have := hall ("a", JsonVal.jnum false 45 (-1)) (by rw [← hde]; simp)
  simp [JsonVal.isPyInt] at this

/-- Claim C9 (amended): when extraction parses successfully the mapping
keeps keys as given, and values are returned exactly as `json.loads`
parses them, with no coercion to integers: a block `\x7b"a": d1.d2\x7d`
with decimal digits `d1`, `d2` yields under key `"a"` the float value
`(10 * d1 + d2) / 10` (a non-`int` Python value), never an integer. -/
theorem extract_scores_values_as_parsed (i j : Fin 10) :
    extract_scores_from_json
        (String.mk ['\x7b', '"', 'a', '"', ':', ' ', Char.ofNat (48 + i.val), '.',
          Char.ofNat (48 + j.val), '\x7d']) =
      some [("a", JsonVal.jnum false (Int.ofNat (10 * i.val + j.val)) (-1))] ∧
    (JsonVal.jnum false (Int.ofNat (10 * i.val + j.val)) (-1)).isPyInt = false := by
  fin_cases i <;> fin_cases j <;> exact ⟨rfl, rfl⟩

/-- Claim C10: a first block parsing to the empty object is returned as the
empty mapping, and the shell then behaves as if extraction were absent —
the empty dict is falsy so no chart is rendered, while the narrative is
still displayed; `create_radar_chart` on empty scores and categories lists
returns a figure with an empty point sequence (and the fixed axis range). -/
theorem empty_object_no_chart (q a fb : String) (hq : q ≠ "") (ha : a ≠ "")
    (hempty : extract_scores_from_json fb = some []) :
    (mainModel q a (fun _ => Except.ok fb)).scores = some [] ∧
    (mainModel q a (fun _ => Except.ok fb)).chart = none ∧
    (mainModel q a (fun _ => Except.ok fb)).narrative = some (clean_feedback fb) ∧
    chartPoints (create_radar_chart [] []) = [] ∧
    (create_radar_chart [] []).radialRange = (0, 5) := by
  rw [mainModel_ok q a fb hq ha]
  refine ⟨by simp [hempty], ?_, rfl, rfl, rfl⟩
  simp only [hempty]
  rfl

theorem empty_object_no_chart_witness :
    ("X" : String) ≠ "" ∧ ("Y" : String) ≠ "" ∧
    extract_scores_from_json "x\x7b\x7dy" = some [] ∧
    ((mainModel "X" "Y" (fun _ => Except.ok "x\x7b\x7dy")).scores = some [] ∧
      (mainModel "X" "Y" (fun _ => Except.ok "x\x7b\x7dy")).chart = none ∧
      (mainModel "X" "Y" (fun _ => Except.ok "x\x7b\x7dy")).narrative =
        some (clean_feedback "x\x7b\x7dy") ∧
      chartPoints (create_radar_chart [] []) = [] ∧
      (create_radar_chart [] []).radialRange = (0, 5)) :=
  ⟨by decide, by decide, by rfl,
    empty_object_no_chart "X" "Y" "x\x7b\x7dy" (by decide) (by decide) (by rfl)⟩

theorem extract_scores_values_as_parsed_witness :
    extract_scores_from_json
        (String.mk ['\x7b', '"', 'a', '"', ':', ' ', Char.ofNat (48 + (4 : Fin 10).val), '.',
          Char.ofNat (48 + (5 : Fin 10).val), '\x7d']) =
      some [("a", JsonVal.jnum false (Int.ofNat (10 * (4 : Fin 10).val + (5 : Fin 10).val)) (-1))] ∧
    (JsonVal.jnum false (Int.ofNat (10 * (4 : Fin 10).val + (5 : Fin 10).val)) (-1)).isPyInt = false :=
  extract_scores_values_as_parsed 4 5
